import Mathlib

/-!
Verification of the SAP learning-progress tracker (sap-lms).

The repository keeps two variants of the same application:
* `src/app/page.tsx` — chapter-granularity catalog (leaf unit = Chapter);
* `src/components/SAPTrainingComponents.tsx` (and the copy under
  `src/app/components/`) — module-granularity catalog (leaf unit = Module).

The progress store (`useUserProgress` / `updateProgress`), the local-storage
loader, and the retry wrapper (`fetchWithExponentialBackoff`) are textually
identical across the variants, so they are embedded once.  The completion
aggregation (`CourseCard` / `CourseDetail` / `getTotalChapters`) differs per
variant and is embedded in the namespaces `ChapterLevel` and `ModuleLevel`.
-/

/-- One persisted progress record, `{ courseId, completedModules }`
(`completedModules` stores leaf IDs: module IDs in the module-granularity
variant, chapter IDs in the chapter-granularity variant). -/
structure ProgressEntry where
  courseId : String
  completedModules : List String
deriving DecidableEq, Repr

/-- The body of `updateProgress` applied to an existing entry
(`src/components/SAPTrainingComponents.tsx` lines 214-223): when `isCompleted`
and the leaf is absent, push it; otherwise when not `isCompleted`, filter it
out; otherwise the entry is returned unchanged. -/
def updateEntry (e : ProgressEntry) (moduleId : String) (isCompleted : Bool) :
    ProgressEntry :=
  if isCompleted && !(e.completedModules.contains moduleId) then
    { e with completedModules := e.completedModules ++ [moduleId] }
  else if !isCompleted then
    { e with completedModules := e.completedModules.filter (fun id => id != moduleId) }
  else
    e

/-- `updateProgress` (`src/components/SAPTrainingComponents.tsx` lines 201-228,
identical in `src/app/page.tsx` lines 385-412).  The source scans the array
with `findIndex` and replaces the entry at that index, pushing a fresh entry
`{ courseId, completedModules: isCompleted ? [moduleId] : [] }` at the end
when no entry matches; this is modelled as one recursive pass that rewrites
the first entry whose `courseId` matches and appends the fresh entry at the
end of the list when none does. -/
def updateProgress (courseId moduleId : String) (isCompleted : Bool) :
    List ProgressEntry → List ProgressEntry
  | [] => [⟨courseId, if isCompleted then [moduleId] else []⟩]
  | e :: rest =>
    if e.courseId = courseId then
      updateEntry e moduleId isCompleted :: rest
    else
      e :: updateProgress courseId moduleId isCompleted rest

/-- The localStorage restore step of `useUserProgress`
(`src/components/SAPTrainingComponents.tsx` lines 181-191): the state starts
as the empty collection; when a stored string is present (and truthy — the
empty string is falsy in JS, so it is skipped) `JSON.parse` is attempted
inside try/catch: on success the parsed entries become the collection, on
parse failure the error is logged and the collection is set to empty.
`parse` abstracts the platform primitive `JSON.parse` (plus the cast to
`ProgressEntry[]`); a faithful `parse` returns `none` exactly on the strings
`JSON.parse` throws on — in particular on the empty string. -/
def loadProgress (parse : String → Option (List ProgressEntry)) :
    Option String → List ProgressEntry
  | none => []
  | some s =>
    if s = "" then []
    else
      match parse s with
      | none => []
      | some entries => entries

/-- What one iteration of `fetchWithExponentialBackoff` observes about
attempt `i`: a success response with a parseable JSON body, a response with
`response.ok` false carrying this HTTP status (whose error body parses), or a
network-level exception thrown by `fetch` itself. -/
inductive FetchOutcome where
  | ok (body : String)
  | httpError (status : Nat)
  | networkError
deriving DecidableEq, Repr

/-- How a call to the wrapper can fail: the `API request failed: status ...`
error built for a non-ok response, a rethrown network-level exception, or the
final `Maximum retries reached.` error (reachable only when `maxRetries` is
zero). -/
inductive FetchFailure where
  | apiError (status : Nat)
  | network
  | maxRetriesReached
deriving DecidableEq, Repr

/-- Observable behaviour of one call to the wrapper: the value returned or
error thrown, how many times `fetch` ran, and the backoff delays (in ms, in
order) awaited between attempts. -/
structure FetchResult where
  result : Except FetchFailure String
  attempts : Nat
  delays : List ℚ
deriving Repr

/-- Bookkeeping for a retry: one more `fetch` call happened before `r`, and
the delay `2^i * 1000 + jitter` (the source computes
`Math.pow(2, i) * 1000 + Math.random() * 1000`) was awaited first. -/
def retryResult (r : FetchResult) (i : Nat) (jitter : Nat → ℚ) : FetchResult :=
  ⟨r.result, r.attempts + 1, ((2 : ℚ) ^ i * 1000 + jitter i) :: r.delays⟩

/-- The loop of `fetchWithExponentialBackoff`
(`src/components/SAPTrainingComponents.tsx` lines 31-51, identical in
`src/app/page.tsx` lines 92-112), from loop index `i` with
`fuel = maxRetries - i` iterations left.  Per iteration: a success response
returns its body; a non-ok response first reads the error body, then when the
status is 429 and `i < maxRetries - 1` waits the backoff delay and continues;
any other non-ok response throws, and that throw — like a network-level
exception — is caught by the surrounding catch, which rethrows on the last
iteration (`i = maxRetries - 1`) and otherwise waits the same backoff delay
and continues.  `jitter i` stands for the `Math.random() * 1000` sampled
before attempt `i + 1`. -/
def fetchFrom (responses : Nat → FetchOutcome) (jitter : Nat → ℚ)
    (maxRetries : Nat) : Nat → Nat → FetchResult
  | _, 0 => ⟨.error .maxRetriesReached, 0, []⟩
  | i, fuel + 1 =>
    match responses i with
    | .ok body => ⟨.ok body, 1, []⟩
    | .httpError status =>
      if status = 429 ∧ i < maxRetries - 1 then
        retryResult (fetchFrom responses jitter maxRetries (i + 1) fuel) i jitter
      else if i = maxRetries - 1 then
        ⟨.error (.apiError status), 1, []⟩
      else
        retryResult (fetchFrom responses jitter maxRetries (i + 1) fuel) i jitter
    | .networkError =>
      if i = maxRetries - 1 then
        ⟨.error .network, 1, []⟩
      else
        retryResult (fetchFrom responses jitter maxRetries (i + 1) fuel) i jitter

/-- `fetchWithExponentialBackoff(url, options, maxRetries)`: run the loop
from `i = 0`; when the loop exhausts without returning or throwing (only
possible for `maxRetries = 0`) throw `Maximum retries reached.`. -/
def fetchWithExponentialBackoff (responses : Nat → FetchOutcome)
    (jitter : Nat → ℚ) (maxRetries : Nat) : FetchResult :=
  fetchFrom responses jitter maxRetries 0 maxRetries

/-- A server returning HTTP 404 on the first attempt and success afterwards. -/
def c2Responses : Nat → FetchOutcome :=
  fun i => if i = 0 then .httpError 404 else .ok "body"

/-- Zero jitter (`Math.random()` returning 0 is in its range). -/
def zeroJitter : Nat → ℚ := fun _ => 0

/-- A server returning HTTP 429 on attempts 0, 1 and 2 and success with the
given body on every later attempt. -/
def c4Responses (body : String) : Nat → FetchOutcome :=
  fun i => if i < 3 then .httpError 429 else .ok body

/-- `progress.find(p => p.courseId === course.id)` — the entry handed to
`CourseCard` / `CourseDetail` for a course. -/
def findEntry (progress : List ProgressEntry) (courseId : String) :
    Option ProgressEntry :=
  progress.find? (fun p => p.courseId == courseId)

/-- `progress?.completedModules.length || 0` — the completed count both
variants display and feed into the ratio; note it is the raw stored length,
with no filtering against the catalog. -/
def completedCount (progress : Option ProgressEntry) : Nat :=
  match progress with
  | none => 0
  | some e => e.completedModules.length

/-- The closed domain tags; the chapter-granularity catalog adds
CrossFunctional to the three used by the module-granularity catalog. -/
inductive Domain where
  | Logistics
  | Finance
  | Technical
  | CrossFunctional
deriving DecidableEq, Repr

namespace ChapterLevel

/-- `Chapter` of the chapter-granularity catalog (`src/app/page.tsx`). -/
structure Chapter where
  id : String
  title : String
  content : String
deriving DecidableEq, Repr

/-- `Module` of the chapter-granularity catalog: a named module holding the
leaf chapters. -/
structure Module where
  id : String
  name : String
  chapters : List Chapter
deriving DecidableEq, Repr

/-- `SAPCourse` of the chapter-granularity catalog. -/
structure SAPCourse where
  id : String
  title : String
  domain : Domain
  totalModules : Nat
  modules : List Module
  description : String
deriving DecidableEq, Repr

/-- `getTotalChapters` (`src/app/page.tsx` lines 427-429):
`course.modules.reduce((total, module) => total + module.chapters.length, 0)`. -/
def getTotalChapters (course : SAPCourse) : Nat :=
  course.modules.foldl (fun total m => total + m.chapters.length) 0

/-- The leaf IDs that actually exist in a course of this catalog variant:
all of its chapter IDs. -/
def courseLeafIds (course : SAPCourse) : List String :=
  (course.modules.map (fun m => m.chapters.map (fun ch => ch.id))).flatten

/-- The completed count the code uses (`CourseCard` / `CourseDetail`,
`src/app/page.tsx` lines 439 and 499): the raw stored length. -/
def completedLeaves (course : SAPCourse) (collection : List ProgressEntry) :
    Nat :=
  completedCount (findEntry collection course.id)

/-- The completed count in the words of the spec (section 4.2): the size of
the stored set after filtering it against the leaf IDs that exist in the
catalog, so orphaned stale IDs contribute nothing.  Stated for comparison
with `completedLeaves`, the count the code computes. -/
def spec_completedLeaves (course : SAPCourse)
    (collection : List ProgressEntry) : Nat :=
  match findEntry collection course.id with
  | none => 0
  | some e =>
    (e.completedModules.filter
      (fun l => (courseLeafIds course).contains l)).length

/-- The percentage `CourseCard` computes (`src/app/page.tsx` line 440):
`totalChapters > 0 ? (completedCount / totalChapters) * 100 : 0`. -/
def courseCardPercent (course : SAPCourse) (collection : List ProgressEntry) :
    ℚ :=
  if 0 < getTotalChapters course then
    ((completedLeaves course collection : ℚ) /
      (getTotalChapters course : ℚ)) * 100
  else 0

/-- The completion ratio of the spec is the displayed percentage scaled back
to `[0,1]`. -/
def completionRatio (course : SAPCourse) (collection : List ProgressEntry) :
    ℚ :=
  courseCardPercent course collection / 100

/-- The course-completion check of this variant (`src/app/page.tsx` lines
441 and 501): `completedCount === totalChapters && totalChapters > 0` — the
comparand is the computed chapter total. -/
def isCourseCompleted (course : SAPCourse)
    (collection : List ProgressEntry) : Prop :=
  completedLeaves course collection = getTotalChapters course ∧
    0 < getTotalChapters course

/-- Course `mm` of the chapter-granularity catalog (`src/app/page.tsx` lines
147-196), verbatim. -/
def mmCourse : SAPCourse :=
  { id := "mm"
    title := "SAP MM (Materials Management)"
    domain := .Logistics
    totalModules := 5
    description := "Comprehensive guide to procurement processes, inventory management, and invoice verification in SAP."
    modules :=
      [ { id := "mm-1"
          name := "Master Data Setup (Vendor & Material)"
          chapters :=
            [ ⟨"mm-c1.1", "Material Master Views & Creation", "The Material Master is central to logistics. It defines how a material is managed. Key views are Basic Data, Purchasing, Accounting, and Warehouse Management. T-code: MM01."⟩,
              ⟨"mm-c1.2", "Vendor Master (Business Partner)", "The Vendor Master is now part of the Business Partner (BP) concept in S/4HANA. It holds all supplier-related data, like address, payment terms, and purchasing data. T-code: BP."⟩ ] },
        { id := "mm-2"
          name := "Purchase Requisition & Order Processing"
          chapters :=
            [ ⟨"mm-c2.1", "Creating a Purchase Requisition (PR)", "A Purchase Requisition is an internal document requesting a material or service. It\x27s the first formal step in procurement. T-code: ME51N."⟩,
              ⟨"mm-c2.2", "Source Determination & Purchase Order (PO)", "The Purchase Order is a formal, external document sent to a vendor, committing the company to the purchase. T-code: ME21N."⟩,
              ⟨"mm-c2.3", "Contract & Scheduling Agreement", "These are long-term procurement agreements with vendors, simplifying future PO creation."⟩ ] },
        { id := "mm-3"
          name := "Goods Receipt and Movement Types"
          chapters :=
            [ ⟨"mm-c3.1", "Performing a Goods Receipt (GR)", "The Goods Receipt documents the physical movement of goods into inventory, referencing a Purchase Order. This creates a material document. T-code: MIGO."⟩,
              ⟨"mm-c3.2", "Understanding Movement Types", "Movement types (e.g., 101 for GR, 201 for consumption) control how goods movement is recorded in the system and the corresponding General Ledger postings."⟩ ] },
        { id := "mm-4"
          name := "Invoice Verification (LIV)"
          chapters :=
            [ ⟨"mm-c4.1", "Entering a Vendor Invoice", "Invoice Verification is the final step in the P2P cycle, matching the invoice against the PO and GR to ensure accuracy. This posts the financial liability. T-code: MIRO."⟩,
              ⟨"mm-c4.2", "Three-Way Match Concept", "The three-way match verifies the data between the Purchase Order, the Goods Receipt, and the Invoice before payment is approved."⟩ ] },
        { id := "mm-5"
          name := "Inventory Management and Physical Inventory"
          chapters :=
            [ ⟨"mm-c5.1", "Stock Types and Valuation", "Stock can be unrestricted, quality inspection, or blocked. Valuation defines the cost of the material."⟩,
              ⟨"mm-c5.2", "Physical Inventory Process", "This process ensures that the physical stock matches the system stock. Key steps include document creation, counting, and posting differences. T-code: MI01, MI04, MI07."⟩ ] } ] }

end ChapterLevel

namespace ModuleLevel

/-- `Module` of the module-granularity catalog
(`src/components/SAPTrainingComponents.tsx`): the module itself is the leaf. -/
structure Module where
  id : String
  title : String
deriving DecidableEq, Repr

/-- `SAPCourse` of the module-granularity catalog. -/
structure SAPCourse where
  id : String
  title : String
  domain : Domain
  totalModules : Nat
  modules : List Module
  description : String
deriving DecidableEq, Repr

/-- The completed count the code uses (`CourseCard` line 249 and
`CourseDetail` line 398 of `src/components/SAPTrainingComponents.tsx`). -/
def completedLeaves (course : SAPCourse) (collection : List ProgressEntry) :
    Nat :=
  completedCount (findEntry collection course.id)

/-- The percentage `CourseCard` and `CourseDetail` compute
(`src/components/SAPTrainingComponents.tsx` lines 250 and 399):
`(completedCount / course.totalModules) * 100` — the denominator is the
declared `totalModules` field, with no zero guard (the catalog declares no
zero-module course; in ℚ a zero denominator yields 0 where JS would yield
NaN). -/
def courseCardPercent (course : SAPCourse) (collection : List ProgressEntry) :
    ℚ :=
  ((completedLeaves course collection : ℚ) / (course.totalModules : ℚ)) * 100

/-- The percentage in the words of the spec (section 4.2): the denominator of
the module-granularity variant is `totalLeaves` = the computed module count,
the declared field being informational only.  Stated for comparison with
`courseCardPercent`, the percentage the code computes. -/
def spec_courseCardPercent (course : SAPCourse)
    (collection : List ProgressEntry) : ℚ :=
  if 0 < course.modules.length then
    ((completedLeaves course collection : ℚ) /
      (course.modules.length : ℚ)) * 100
  else 0

/-- The course-completion check of this variant
(`src/components/SAPTrainingComponents.tsx` lines 251 and 400):
`completedCount === course.totalModules` — the comparand is the declared
field. -/
def isCourseCompleted (course : SAPCourse)
    (collection : List ProgressEntry) : Prop :=
  completedLeaves course collection = course.totalModules

/-- The completion check in the words of the spec (section 4.2):
`totalLeaves > 0 AND completedLeaves == totalLeaves`, where `totalLeaves`
of the module-granularity variant is the computed module count, the
declared field being informational only.  The completed count is kept as
the code's, to isolate exactly the question of which total is the
comparand.  Stated for comparison with `isCourseCompleted`, the check the
code performs. -/
def spec_isCourseCompleted (course : SAPCourse)
    (collection : List ProgressEntry) : Prop :=
  completedLeaves course collection = course.modules.length ∧
    0 < course.modules.length

/-- A module-granularity course whose declared `totalModules` (5) diverges
from its computed module count (2) — the catalog authoring error the spec
contemplates. -/
def divergentCourse : SAPCourse :=
  { id := "div"
    title := "Divergent Course"
    domain := .Technical
    totalModules := 5
    modules := [⟨"div-1", "First"⟩, ⟨"div-2", "Second"⟩]
    description := "Declared total diverges from the module count." }

end ModuleLevel

/-- A stored collection holding, for course `mm`, the stale module-level leaf
ID `mm-1` — exactly what the module-granularity variant of this repository
persists, read back by the chapter-granularity variant, whose leaves are
chapter IDs. -/
def mmOrphanCollection : List ProgressEntry := [⟨"mm", ["mm-1"]⟩]

/-- A stored collection for course `mm` holding the five stale module-level
IDs plus seven genuine chapter IDs: 12 stored leaves against a catalog of 11
chapters. -/
def mmMigratedCollection : List ProgressEntry :=
  [⟨"mm", ["mm-1", "mm-2", "mm-3", "mm-4", "mm-5", "mm-c1.1", "mm-c1.2",
    "mm-c2.1", "mm-c2.2", "mm-c2.3", "mm-c3.1", "mm-c3.2"]⟩]

/-- Both modules of the divergent course marked complete. -/
def divergentCollection : List ProgressEntry :=
  [⟨"div", ["div-1", "div-2"]⟩]

/-- A concrete stand-in for `JSON.parse` plus the cast: it accepts exactly
the string "stored" (and, like `JSON.parse`, rejects the empty string). -/
def exampleParse : String → Option (List ProgressEntry) :=
  fun s => if s = "stored" then some [⟨"mm", ["mm-c1.1"]⟩] else none

lemma updateEntry_courseId (e : ProgressEntry) (moduleId : String)
    (isCompleted : Bool) :
    (updateEntry e moduleId isCompleted).courseId = e.courseId := by
  unfold updateEntry
  split <;> [rfl; skip]
  split <;> rfl

lemma contains_append_singleton (xs : List String) (l : String) :
    (xs ++ [l]).contains l = true := by
  induction xs with
  | nil => simp
  | cons x xs ih => simp [List.contains_cons, ih]

lemma updateEntry_idem (e : ProgressEntry) (moduleId : String)
    (isCompleted : Bool) :
    updateEntry (updateEntry e moduleId isCompleted) moduleId isCompleted =
      updateEntry e moduleId isCompleted := by
  cases isCompleted with
  | false =>
    simp only [updateEntry, Bool.false_and, Bool.not_false, if_true, if_false]
    simp [List.filter_filter]
  | true =>
    by_cases h : moduleId ∈ e.completedModules
    · simp [updateEntry, h]
    · simp [updateEntry, h]

lemma updateProgress_nil (c l : String) (b : Bool) :
    updateProgress c l b [] = [⟨c, if b then [l] else []⟩] := rfl

lemma updateProgress_cons_pos (c l : String) (b : Bool) (e : ProgressEntry)
    (rest : List ProgressEntry) (h : e.courseId = c) :
    updateProgress c l b (e :: rest) = updateEntry e l b :: rest := by
  simp [updateProgress, h]

lemma updateProgress_cons_neg (c l : String) (b : Bool) (e : ProgressEntry)
    (rest : List ProgressEntry) (h : ¬ e.courseId = c) :
    updateProgress c l b (e :: rest) = e :: updateProgress c l b rest := by
  simp [updateProgress, h]

lemma updateEntry_fresh (c l : String) (b : Bool) :
    updateEntry ⟨c, []⟩ l b = ⟨c, if b then [l] else []⟩ := by
  cases b <;> simp [updateEntry]

/-- C5: the toggle is idempotent — `setLeafCompletion(c, l, b)` applied twice
yields the same collection as applied once, for `b` true as well as false. -/
theorem updateProgress_idempotent (p : List ProgressEntry)
    (c l : String) (b : Bool) :
    updateProgress c l b (updateProgress c l b p) = updateProgress c l b p := by
  induction p with
  | nil =>
    rw [updateProgress_nil,
      updateProgress_cons_pos c l b ⟨c, if b then [l] else []⟩ [] rfl,
      ← updateEntry_fresh c l b, updateEntry_idem, updateEntry_fresh]
  | cons e rest ih =>
    by_cases h : e.courseId = c
    · rw [updateProgress_cons_pos _ _ _ _ _ h,
        updateProgress_cons_pos _ _ _ _ _ ((updateEntry_courseId e l b).trans h),
        updateEntry_idem]
    · rw [updateProgress_cons_neg _ _ _ _ _ h,
        updateProgress_cons_neg _ _ _ _ _ h, ih]

lemma updateProgress_map_courseId (p : List ProgressEntry) (c l : String)
    (b : Bool) :
    (updateProgress c l b p).map (fun e => e.courseId) =
        p.map (fun e => e.courseId) ∨
      (updateProgress c l b p).map (fun e => e.courseId) =
        p.map (fun e => e.courseId) ++ [c] := by
  induction p with
  | nil => right; rw [updateProgress_nil]; rfl
  | cons e rest ih =>
    by_cases h : e.courseId = c
    · left
      rw [updateProgress_cons_pos _ _ _ _ _ h]
      simp [updateEntry_courseId]
    · rw [updateProgress_cons_neg _ _ _ _ _ h]
      rcases ih with h1 | h1
      · left; simp [h1]
      · right; simp [h1]

/-- C6: no toggle ever deletes a course entry — every `courseId` present in
the collection is still present after any `setLeafCompletion` call, and in
particular marking `mm-1` of course `mm` complete and then incomplete leaves
the `mm` entry present as an empty set, not deleted. -/
theorem updateProgress_preserves_entries :
    (∀ (p : List ProgressEntry) (c l : String) (b : Bool) (c' : String),
        c' ∈ p.map (fun e => e.courseId) →
        c' ∈ (updateProgress c l b p).map (fun e => e.courseId)) ∧
      updateProgress "mm" "mm-1" false (updateProgress "mm" "mm-1" true []) =
        [⟨"mm", []⟩] := by
  constructor
  · intro p c l b c' hc
    rcases updateProgress_map_courseId p c l b with h | h <;> rw [h]
    · exact hc
    · exact List.mem_append_left _ hc
  · decide

/-- Witness for C6: course `fico` keeps its entry when course `mm` is
toggled. -/
theorem updateProgress_preserves_entries_witness :
    ("fico" ∈ ([⟨"fico", ["fi-1"]⟩] : List ProgressEntry).map
        (fun e => e.courseId)) ∧
      "fico" ∈ (updateProgress "mm" "mm-1" true
        [⟨"fico", ["fi-1"]⟩]).map (fun e => e.courseId) :=
  ⟨by decide, updateProgress_preserves_entries.1
    [⟨"fico", ["fi-1"]⟩] "mm" "mm-1" true "fico" (by decide)⟩

lemma updateProgress_false_of_not_mem (c l : String) :
    ∀ p : List ProgressEntry, (∀ e ∈ p, e.courseId ≠ c) →
      updateProgress c l false p = p ++ [⟨c, []⟩]
  | [], _ => rfl
  | e :: rest, h => by
    rw [updateProgress_cons_neg _ _ _ _ _ (h e (List.mem_cons_self e rest)),
      updateProgress_false_of_not_mem c l rest
        (fun x hx => h x (List.mem_cons_of_mem e hx))]
    rfl

/-- C9: calling the toggle with `completed = false` on a course that has no
entry does not leave the collection unchanged — the code always appends a
fresh entry with an empty completed set. -/
theorem updateProgress_false_creates_empty_entry (p : List ProgressEntry)
    (c l : String) (h : ∀ e ∈ p, e.courseId ≠ c) :
    updateProgress c l false p = p ++ [⟨c, []⟩] ∧
      updateProgress c l false p ≠ p := by
  have h1 := updateProgress_false_of_not_mem c l p h
  refine ⟨h1, ?_⟩
  rw [h1]
  intro hh
  have := congrArg List.length hh
  simp at this

/-- Witness for C9: on a collection holding only `fico`, toggling `mm-1` of
`mm` off appends an empty `mm` entry. -/
theorem updateProgress_false_creates_empty_entry_witness :
    (∀ e ∈ ([⟨"fico", []⟩] : List ProgressEntry), e.courseId ≠ "mm") ∧
      (updateProgress "mm" "mm-1" false [⟨"fico", []⟩] =
          [⟨"fico", []⟩] ++ [⟨"mm", []⟩] ∧
        updateProgress "mm" "mm-1" false [⟨"fico", []⟩] ≠ [⟨"fico", []⟩]) :=
  ⟨by decide, updateProgress_false_creates_empty_entry
    [⟨"fico", []⟩] "mm" "mm-1" (by decide)⟩

lemma updateProgress_filter_ne (p : List ProgressEntry) (c l : String)
    (b : Bool) :
    (updateProgress c l b p).filter (fun e => e.courseId != c) =
      p.filter (fun e => e.courseId != c) := by
  induction p with
  | nil => rw [updateProgress_nil]; simp
  | cons e rest ih =>
    by_cases h : e.courseId = c
    · rw [updateProgress_cons_pos _ _ _ _ _ h]
      have hc : ((updateEntry e l b).courseId != c) = false := by
        simp [updateEntry_courseId, h]
      have he : (e.courseId != c) = false := by simp [h]
      simp [List.filter_cons, hc, he]
    · rw [updateProgress_cons_neg _ _ _ _ _ h]
      have he : (e.courseId != c) = true := by simp [h]
      simp [List.filter_cons, he, ih]

/-- C10: `setLeafCompletion` is frame-preserving — the subsequence of entries
whose `courseId` differs from the toggled course is exactly the same (same
entries, same order) before and after, and the list of course keys is either
unchanged or extended by exactly the toggled course at the end. -/
theorem updateProgress_frame (p : List ProgressEntry) (c l : String)
    (b : Bool) :
    (updateProgress c l b p).filter (fun e => e.courseId != c) =
        p.filter (fun e => e.courseId != c) ∧
      ((updateProgress c l b p).map (fun e => e.courseId) =
          p.map (fun e => e.courseId) ∨
        (updateProgress c l b p).map (fun e => e.courseId) =
          p.map (fun e => e.courseId) ++ [c]) :=
  ⟨updateProgress_filter_ne p c l b, updateProgress_map_courseId p c l b⟩

/-- C7: the restore step is total and never raises to the caller — an absent
stored string yields the empty collection, a stored string that does not
parse as JSON yields the empty collection (the error is logged, not
surfaced), and a stored string that parses yields exactly the parsed
entries (given that the abstracted parse, like JSON.parse, rejects the
empty string). -/
theorem loadProgress_total_recovery
    (parse : String → Option (List ProgressEntry))
    (hempty : parse "" = none) :
    loadProgress parse none = [] ∧
      (∀ s, parse s = none → loadProgress parse (some s) = []) ∧
      (∀ s entries, parse s = some entries →
        loadProgress parse (some s) = entries) := by
  refine ⟨rfl, ?_, ?_⟩
  · intro s hs
    by_cases h : s = "" <;> simp [loadProgress, h, hs]
  · intro s entries hs
    by_cases h : s = ""
    · rw [h, hempty] at hs
      exact absurd hs (by simp)
    · simp [loadProgress, h, hs]

/-- Witness for C7 at a concrete parse function and concrete stored
strings. -/
theorem loadProgress_total_recovery_witness :
    exampleParse "" = none ∧
      loadProgress exampleParse none = [] ∧
      loadProgress exampleParse (some "oops") = [] ∧
      loadProgress exampleParse (some "stored") = [⟨"mm", ["mm-c1.1"]⟩] :=
  ⟨rfl, (loadProgress_total_recovery exampleParse rfl).1,
    (loadProgress_total_recovery exampleParse rfl).2.1 "oops" rfl,
    (loadProgress_total_recovery exampleParse rfl).2.2 "stored" _ rfl⟩

lemma fetchFrom_succ_ok (responses : Nat → FetchOutcome) (jitter : Nat → ℚ)
    (maxRetries i fuel : Nat) (body : String)
    (h : responses i = FetchOutcome.ok body) :
    fetchFrom responses jitter maxRetries i (fuel + 1) =
      ⟨Except.ok body, 1, []⟩ := by
  simp [fetchFrom, h]

lemma fetchFrom_succ_retry429 (responses : Nat → FetchOutcome)
    (jitter : Nat → ℚ) (maxRetries i fuel : Nat)
    (h : responses i = FetchOutcome.httpError 429)
    (hi : i < maxRetries - 1) :
    fetchFrom responses jitter maxRetries i (fuel + 1) =
      retryResult (fetchFrom responses jitter maxRetries (i + 1) fuel) i
        jitter := by
  simp [fetchFrom, h, hi]

lemma fetchFrom_succ_fail (responses : Nat → FetchOutcome)
    (jitter : Nat → ℚ) (maxRetries i fuel status : Nat)
    (h : responses i = FetchOutcome.httpError status)
    (hne : ¬(status = 429 ∧ i < maxRetries - 1))
    (hlast : i = maxRetries - 1) :
    fetchFrom responses jitter maxRetries i (fuel + 1) =
      ⟨Except.error (FetchFailure.apiError status), 1, []⟩ := by
  subst hlast
  simp [fetchFrom, h, hne]

lemma fetchFrom_succ_retry_http (responses : Nat → FetchOutcome)
    (jitter : Nat → ℚ) (maxRetries i fuel status : Nat)
    (h : responses i = FetchOutcome.httpError status)
    (hne : ¬(status = 429 ∧ i < maxRetries - 1))
    (hlast : i ≠ maxRetries - 1) :
    fetchFrom responses jitter maxRetries i (fuel + 1) =
      retryResult (fetchFrom responses jitter maxRetries (i + 1) fuel) i
        jitter := by
  simp [fetchFrom, h, hne, hlast]

lemma fetchFrom_attempts_pos (responses : Nat → FetchOutcome)
    (jitter : Nat → ℚ) (maxRetries i fuel : Nat) (hf : fuel ≠ 0) :
    1 ≤ (fetchFrom responses jitter maxRetries i fuel).attempts := by
  cases fuel with
  | zero => exact absurd rfl hf
  | succ f =>
    cases h : responses i with
    | ok body => simp [fetchFrom, h]
    | httpError status =>
      simp only [fetchFrom, h]
      split_ifs <;> simp [retryResult]
    | networkError =>
      simp only [fetchFrom, h]
      split_ifs <;> simp [retryResult]

/-- C2 counterexample: with maxAttempts = 5, an HTTP 404 detected on the
first attempt is not raised as an immediate terminal failure — the wrapper
waits one backoff delay, issues a second fetch attempt, and here even
succeeds with the second response's body. -/
theorem non429_is_retried_counterexample :
    (fetchWithExponentialBackoff c2Responses zeroJitter 5).attempts = 2 ∧
      (fetchWithExponentialBackoff c2Responses zeroJitter 5).delays =
        [1000] ∧
      (fetchWithExponentialBackoff c2Responses zeroJitter 5).result =
        Except.ok "body" := by
  have e1 : fetchFrom c2Responses zeroJitter 5 1 4 =
      ⟨Except.ok "body", 1, []⟩ :=
    fetchFrom_succ_ok c2Responses zeroJitter 5 1 3 "body" rfl
  have e0 : fetchWithExponentialBackoff c2Responses zeroJitter 5 =
      retryResult ⟨Except.ok "body", 1, []⟩ 0 zeroJitter := by
    simp only [fetchWithExponentialBackoff]
    rw [fetchFrom_succ_retry_http c2Responses zeroJitter 5 0 4 404 rfl
      (by decide) (by decide), e1]
  rw [e0]
  refine ⟨rfl, ?_, rfl⟩
  norm_num [retryResult, zeroJitter]

/-- C2 amended: a non-success, non-429 status does raise an error on the
attempt where it is detected, but that error is caught by the wrapper's own
catch-all — only on the final attempt (so immediately when maxAttempts = 1)
does it reach the caller; on any earlier attempt the wrapper waits the
backoff delay 2^i*1000 + jitter and issues another fetch attempt. -/
theorem non429_failure_retry_behavior (responses : Nat → FetchOutcome)
    (jitter : Nat → ℚ) (maxRetries status : Nat)
    (hs : status ≠ 429) (h0 : responses 0 = FetchOutcome.httpError status) :
    (maxRetries = 1 →
      fetchWithExponentialBackoff responses jitter maxRetries =
        ⟨Except.error (FetchFailure.apiError status), 1, []⟩) ∧
      (2 ≤ maxRetries →
        2 ≤ (fetchWithExponentialBackoff responses jitter maxRetries).attempts ∧
        (fetchWithExponentialBackoff responses jitter
            maxRetries).delays.head? = some (1000 + jitter 0)) := by
  constructor
  · rintro rfl
    simp only [fetchWithExponentialBackoff]
    rw [fetchFrom_succ_fail responses jitter 1 0 0 status h0 (by simp) rfl]
  · intro h2
    obtain ⟨f, rfl⟩ : ∃ f, maxRetries = f + 2 := ⟨maxRetries - 2, by omega⟩
    simp only [fetchWithExponentialBackoff]
    rw [fetchFrom_succ_retry_http responses jitter (f + 2) 0 (f + 1) status h0
      (fun hc => hs hc.1) (by omega)]
    constructor
    · have := fetchFrom_attempts_pos responses jitter (f + 2) (0 + 1) (f + 1)
        (by omega)
      simp only [retryResult]
      omega
    · simp only [retryResult, List.head?_cons]
      norm_num

/-- Witness for the amended C2 at a concrete server and maxAttempts = 5. -/
theorem non429_failure_retry_behavior_witness :
    ((404 : Nat) ≠ 429 ∧ c2Responses 0 = FetchOutcome.httpError 404 ∧
        2 ≤ 5) ∧
      (2 ≤ (fetchWithExponentialBackoff c2Responses zeroJitter 5).attempts ∧
        (fetchWithExponentialBackoff c2Responses zeroJitter
          5).delays.head? = some (1000 + zeroJitter 0)) :=
  ⟨⟨by decide, rfl, by omega⟩,
    (non429_failure_retry_behavior c2Responses zeroJitter 5 404 (by decide)
      rfl).2 (by omega)⟩

/-- C4: with maxAttempts = 5, HTTP 429 on attempts 0, 1 and 2 and success on
attempt 3, the wrapper returns the parsed body of the success response after
exactly 4 fetch attempts, waiting exactly one delay 2^i*1000 + jitter before
each re-attempt; with jitter in [0, 1000ms) each delay lies in
[2^i*1000, 2^i*1000 + 1000) and the minimum delays 1000, 2000, 4000 are
strictly increasing. -/
theorem backoff_429_then_success (body : String) (jitter : Nat → ℚ)
    (hj : ∀ i, 0 ≤ jitter i ∧ jitter i < 1000) :
    (fetchWithExponentialBackoff (c4Responses body) jitter 5).result =
        Except.ok body ∧
      (fetchWithExponentialBackoff (c4Responses body) jitter 5).attempts =
        4 ∧
      (fetchWithExponentialBackoff (c4Responses body) jitter 5).delays =
        [1000 + jitter 0, 2000 + jitter 1, 4000 + jitter 2] ∧
      (1000 ≤ 1000 + jitter 0 ∧ 1000 + jitter 0 < 2000) ∧
      (2000 ≤ 2000 + jitter 1 ∧ 2000 + jitter 1 < 3000) ∧
      (4000 ≤ 4000 + jitter 2 ∧ 4000 + jitter 2 < 5000) ∧
      ((1000 : ℚ) < 2000 ∧ (2000 : ℚ) < 4000) := by
  have e3 : fetchFrom (c4Responses body) jitter 5 3 2 =
      ⟨Except.ok body, 1, []⟩ :=
    fetchFrom_succ_ok (c4Responses body) jitter 5 3 1 body rfl
  have e2 : fetchFrom (c4Responses body) jitter 5 2 3 =
      retryResult ⟨Except.ok body, 1, []⟩ 2 jitter := by
    rw [fetchFrom_succ_retry429 (c4Responses body) jitter 5 2 2 rfl
      (by decide), e3]
  have e1 : fetchFrom (c4Responses body) jitter 5 1 4 =
      retryResult (retryResult ⟨Except.ok body, 1, []⟩ 2 jitter) 1 jitter := by
    rw [fetchFrom_succ_retry429 (c4Responses body) jitter 5 1 3 rfl
      (by decide), e2]
  have e0 : fetchWithExponentialBackoff (c4Responses body) jitter 5 =
      retryResult (retryResult (retryResult ⟨Except.ok body, 1, []⟩ 2 jitter)
        1 jitter) 0 jitter := by
    simp only [fetchWithExponentialBackoff]
    rw [fetchFrom_succ_retry429 (c4Responses body) jitter 5 0 4 rfl
      (by decide), e1]
  rw [e0]
  refine ⟨rfl, rfl, by norm_num [retryResult], ?_, ?_, ?_, by norm_num⟩
  · exact ⟨by linarith [(hj 0).1], by linarith [(hj 0).2]⟩
  · exact ⟨by linarith [(hj 1).1], by linarith [(hj 1).2]⟩
  · exact ⟨by linarith [(hj 2).1], by linarith [(hj 2).2]⟩

/-- Witness for C4 with zero jitter and a concrete body. -/
theorem backoff_429_then_success_witness :
    (0 ≤ zeroJitter 0 ∧ zeroJitter 0 < 1000) ∧
      ((fetchWithExponentialBackoff (c4Responses "done") zeroJitter
            5).result = Except.ok "done" ∧
        (fetchWithExponentialBackoff (c4Responses "done") zeroJitter
            5).attempts = 4 ∧
        (fetchWithExponentialBackoff (c4Responses "done") zeroJitter
            5).delays =
          [1000 + zeroJitter 0, 2000 + zeroJitter 1, 4000 + zeroJitter 2] ∧
        (1000 ≤ 1000 + zeroJitter 0 ∧ 1000 + zeroJitter 0 < 2000) ∧
        (2000 ≤ 2000 + zeroJitter 1 ∧ 2000 + zeroJitter 1 < 3000) ∧
        (4000 ≤ 4000 + zeroJitter 2 ∧ 4000 + zeroJitter 2 < 5000) ∧
        ((1000 : ℚ) < 2000 ∧ (2000 : ℚ) < 4000)) :=
  ⟨⟨by norm_num [zeroJitter], by norm_num [zeroJitter]⟩,
    backoff_429_then_success "done" zeroJitter
      (fun i => ⟨by norm_num [zeroJitter], by norm_num [zeroJitter]⟩)⟩

/-- C1 (code divergence): the code counts the orphaned stale leaf ID `mm-1`
— a module-level ID absent from the chapter-level catalog leaves of course
`mm` — so `completedLeaves` is 1 where the spec's filtered count is 0. -/
theorem completedLeaves_counts_orphan :
    ChapterLevel.completedLeaves ChapterLevel.mmCourse mmOrphanCollection =
        1 ∧
      ChapterLevel.spec_completedLeaves ChapterLevel.mmCourse
        mmOrphanCollection = 0 ∧
      "mm-1" ∉ ChapterLevel.courseLeafIds ChapterLevel.mmCourse :=
  ⟨rfl, rfl, by decide⟩

/-- C3 (code divergence): on a stored collection holding 12 leaf IDs for
course `mm` (five of them orphaned module-level IDs) against its catalog of
11 chapters, the completion ratio the code computes is 12/11, strictly above
1 — outside the [0,1] bound the claim states. -/
theorem completionRatio_exceeds_one_on_orphans :
    ChapterLevel.completionRatio ChapterLevel.mmCourse
        mmMigratedCollection = 12 / 11 ∧
      1 < ChapterLevel.completionRatio ChapterLevel.mmCourse
        mmMigratedCollection := by
  have h1 : ChapterLevel.completedLeaves ChapterLevel.mmCourse
      mmMigratedCollection = 12 := rfl
  have h2 : ChapterLevel.getTotalChapters ChapterLevel.mmCourse = 11 := rfl
  have h3 : ChapterLevel.completionRatio ChapterLevel.mmCourse
      mmMigratedCollection = 12 / 11 := by
    simp only [ChapterLevel.completionRatio, ChapterLevel.courseCardPercent,
      h1, h2]
    norm_num
  exact ⟨h3, by rw [h3]; norm_num⟩

/-- C8 counterexample: on a module-granularity course whose declared
`totalModules` (5) diverges from its computed module count (2), the code's
ratio denominator and completion comparand are the declared field — with
both modules complete it shows 40%, not the 100% the computed count would
give, and its completion check fails where the spec's (computed-count)
check holds. -/
theorem moduleLevel_denominator_declared_counterexample :
    ModuleLevel.courseCardPercent ModuleLevel.divergentCourse
        divergentCollection = 40 ∧
      ModuleLevel.spec_courseCardPercent ModuleLevel.divergentCourse
        divergentCollection = 100 ∧
      (40 : ℚ) ≠ 100 ∧
      ¬ ModuleLevel.isCourseCompleted ModuleLevel.divergentCourse
        divergentCollection ∧
      ModuleLevel.spec_isCourseCompleted ModuleLevel.divergentCourse
        divergentCollection := by
  have h1 : ModuleLevel.completedLeaves ModuleLevel.divergentCourse
      divergentCollection = 2 := rfl
  refine ⟨?_, ?_, by norm_num, ?_, ?_⟩
  · simp only [ModuleLevel.courseCardPercent, h1]
    norm_num [ModuleLevel.divergentCourse]
  · simp only [ModuleLevel.spec_courseCardPercent, h1]
    norm_num [ModuleLevel.divergentCourse]
  · unfold ModuleLevel.isCourseCompleted
    decide
  · unfold ModuleLevel.spec_isCourseCompleted
    decide

/-- C8 amended: in the chapter-granularity variant the ratio denominator
and the completion-check comparand are the computed chapter total — ratio
and completion check are invariant under any change of the declared
`totalModules` field — while in the module-granularity variant both are the
declared `totalModules` field: its ratio and completion check are invariant
under any change of the modules list, so there the declared field, not the
computed module count, determines `completionRatio` and the completion
check when the two diverge. -/
theorem ratio_denominator_sources :
    (∀ (c : ChapterLevel.SAPCourse) (coll : List ProgressEntry) (n : Nat),
        ChapterLevel.courseCardPercent { c with totalModules := n } coll =
          ChapterLevel.courseCardPercent c coll) ∧
      (∀ (c : ChapterLevel.SAPCourse) (coll : List ProgressEntry) (n : Nat),
        ChapterLevel.isCourseCompleted { c with totalModules := n } coll ↔
          ChapterLevel.isCourseCompleted c coll) ∧
      (∀ (c : ModuleLevel.SAPCourse) (coll : List ProgressEntry)
          (ms : List ModuleLevel.Module),
        ModuleLevel.courseCardPercent { c with modules := ms } coll =
          ModuleLevel.courseCardPercent c coll) ∧
      (∀ (c : ModuleLevel.SAPCourse) (coll : List ProgressEntry)
          (ms : List ModuleLevel.Module),
        ModuleLevel.isCourseCompleted { c with modules := ms } coll ↔
          ModuleLevel.isCourseCompleted c coll) :=
  ⟨fun c _ _ => by cases c; rfl,
    fun c _ _ => by cases c; exact Iff.rfl,
    fun c _ _ => by cases c; rfl,
    fun c _ _ => by cases c; exact Iff.rfl⟩
